import Mathlib

/-!
Shallow embedding of `Tools/optimize_avatar.py`, a one-shot batch script that
classifies the mesh objects of a loaded scene by name and shape-key presence
and attaches-and-bakes a decimate modifier to the ones selected for reduction,
then exports the scene to a derived path.

The embedding mirrors the script directly:
* the keyword lists and ratio constants keep their source names;
* `classify` is the per-object decision chain of the optimization loop;
* `processObject` is one iteration of the loop over `bpy.data.objects`,
  returning the lines printed, the resulting object state and an outcome tag;
  host-engine failures inside the `try` block are modelled by a function from
  object name to an optional exception message;
* `optimize_for_quest` is the whole procedure: argument parsing, the loop over
  the scene, and the final export request; the scene produced by the FBX
  loading step is a parameter, and the export request is recorded as data;
* `dirname`, `basename`, `splitext` and `joinPath` follow `posixpath`.
-/

/-- Keyword list of the source: object names containing one of these are
never decimated. -/
def PRESERVE_KEYWORDS : List String :=
  ["head", "face", "hand", "finger", "viseme", "outline"]

/-- Keyword list of the source: object names containing one of these are
decimated at the aggressive ratio. -/
def AGGRESSIVE_KEYWORDS : List String :=
  ["shoe", "boot", "belt", "strap", "inner", "prop", "accessory"]

/-- Standard decimation ratio of the source (`0.5`, 50 percent reduction). -/
def RATIO_STANDARD : ℚ := 0.5

/-- Aggressive decimation ratio of the source (`0.2`, 80 percent reduction). -/
def RATIO_AGGRESSIVE : ℚ := 0.2

/-- Python `str.lower`, character by character, as used on object names. -/
def strLower (s : String) : String := String.mk (s.data.map Char.toLower)

/-- Python substring containment `sub in s`. -/
def strContains (s sub : String) : Bool :=
  (List.range (s.data.length + 1)).any fun i => sub.data.isPrefixOf (s.data.drop i)

/-- Python `str.rfind` for a single character: index of the last occurrence,
`-1` when absent. -/
def rfind (s : String) (c : Char) : Int :=
  s.data.enum.foldl (fun acc p => if p.2 == c then (p.1 : Int) else acc) (-1)

/-- `posixpath.dirname`: everything before the last slash, with trailing
slashes stripped unless the head is empty or all slashes. -/
def dirname (p : String) : String :=
  let i := (rfind p '/' + 1).toNat
  let head := p.data.take i
  if !head.isEmpty && !(head.all (fun ch => ch == '/')) then
    String.mk ((head.reverse.dropWhile (fun ch => ch == '/')).reverse)
  else
    String.mk head

/-- `posixpath.basename`: everything after the last slash. -/
def basename (p : String) : String :=
  String.mk (p.data.drop (rfind p '/' + 1).toNat)

/-- `posixpath.splitext`: split off the extension at the last dot of the last
path component, treating a component made only of leading dots as having no
extension. -/
def splitext (p : String) : String × String :=
  let sepIndex := rfind p '/'
  let dotIndex := rfind p '.'
  if sepIndex < dotIndex then
    let fname := (p.data.drop (sepIndex + 1).toNat).take (dotIndex - sepIndex - 1).toNat
    if fname.all (fun ch => ch == '.') then (p, "")
    else (String.mk (p.data.take dotIndex.toNat), String.mk (p.data.drop dotIndex.toNat))
  else (p, "")

/-- `posixpath.join` for one extra component. -/
def joinPath (path b : String) : String :=
  if b.data.take 1 == ['/'] then b
  else if path.data.isEmpty || path.data.getLast? == some '/' then path ++ b
  else path ++ "/" ++ b

/-- Argument parsing of the source: `sys.argv.index("--") + 1` indexes the
argument list; `none` models the `ValueError`/`IndexError` branch. -/
def parseArgs (argv : List String) : Option String :=
  match argv.findIdx? (fun a => a == "--") with
  | none => none
  | some i => argv[i + 1]?

/-- Output path derivation of the source: directory of the input joined with
the input basename, extension stripped, plus the fixed suffix. -/
def output_path (input_path : String) : String :=
  let dir_name := dirname input_path
  let base_name := (splitext (basename input_path)).1
  joinPath dir_name (base_name ++ "_QUEST_SMART.fbx")

/-- A shape-keys datablock (`obj.data.shape_keys`): its list of key blocks,
abstracted to their names. -/
structure ShapeKeys where
  key_blocks : List String
deriving DecidableEq

/-- The parameters of one decimate modifier as the script configures it. -/
structure DecimateParams where
  name : String
  type : String
  ratio : ℚ
  use_collapse_triangulate : Bool
  use_symmetry : Bool
  delimit : List String
deriving DecidableEq

/-- An object datablock (`obj.data`): optional shape-keys datablock, plus the
history of decimations baked into the base mesh by `modifier_apply`. -/
structure MeshData where
  shape_keys : Option ShapeKeys
  applied : List DecimateParams
deriving DecidableEq

/-- A scene object as the script reads and mutates it: display name, type
string (the script only treats `"MESH"` specially), datablock, and the live
modifier stack. -/
structure SceneObject where
  name : String
  type : String
  data : MeshData
  modifiers : List DecimateParams
deriving DecidableEq

/-- The classifier decision for one mesh object. -/
inductive Decision where
  | SKIP_ANIMATED
  | SKIP_PROTECTED
  | REDUCE (ratio : ℚ)
deriving DecidableEq

/-- What one loop iteration did to one scene object. `nonMesh` marks the
`continue` taken before the classifier runs; `failedReduce` carries the
exception message caught by the `try` block. -/
inductive Outcome where
  | nonMesh
  | skippedAnimated
  | skippedProtected
  | reduced (mod : DecimateParams)
  | failedReduce (exc : String)
deriving DecidableEq

/-- The export request issued at the end of the run, with the fixed options of
the source's `export_scene.fbx` call. -/
structure ExportCall where
  filepath : String
  use_selection : Bool
  global_scale : ℚ
  apply_unit_scale : Bool
  add_leaf_bones : Bool
  bake_anim : Bool
deriving DecidableEq

/-- Observable result of one whole run: printed lines in order, the path given
to the FBX loading step (`none` when the run stopped before it), the final
per-object states with outcomes, and the export request if one was issued. -/
structure RunResult where
  log : List String
  loadedPath : Option String
  finalObjects : List (SceneObject × Outcome)
  exported : Option ExportCall
deriving DecidableEq

/-- Source condition `obj.data.shape_keys and len(obj.data.shape_keys.key_blocks) > 0`. -/
def hasShapeKeys (obj : SceneObject) : Bool :=
  match obj.data.shape_keys with
  | none => false
  | some sk => decide (sk.key_blocks.length > 0)

/-- The per-object decision chain of the optimization loop, in source order:
shape keys, then the preserve list, then the aggressive list, then the
standard default. -/
def classify (name : String) (has_shape_keys : Bool) : Decision :=
  let obj_name := strLower name
  if has_shape_keys then Decision.SKIP_ANIMATED
  else if PRESERVE_KEYWORDS.any (fun word => strContains obj_name word) then
    Decision.SKIP_PROTECTED
  else if AGGRESSIVE_KEYWORDS.any (fun word => strContains obj_name word) then
    Decision.REDUCE RATIO_AGGRESSIVE
  else Decision.REDUCE RATIO_STANDARD

/-- The decision the loop reaches for a given object. -/
def decisionOf (obj : SceneObject) : Decision :=
  classify obj.name (hasShapeKeys obj)

/-- The decimate modifier exactly as the script configures it: name
`"SmartDecimate"`, type `"DECIMATE"`, the decided ratio, triangulated
collapse on, symmetry off, delimited at UV and material boundaries. -/
def smartDecimate (r : ℚ) : DecimateParams :=
  { name := "SmartDecimate", type := "DECIMATE", ratio := r,
    use_collapse_triangulate := true, use_symmetry := false,
    delimit := ["UV", "MATERIAL"] }

/-- Net effect of `modifiers.new` followed by `modifier_apply`: the decimation
is baked into the base mesh and no live modifier remains on the stack. -/
def attachAndApply (obj : SceneObject) (m : DecimateParams) : SceneObject :=
  { obj with data := { obj.data with applied := obj.data.applied ++ [m] } }

/-- One iteration of the loop over `bpy.data.objects`: the lines printed for
this object, the object's resulting state, and the outcome tag. `fail` gives
the exception message the host engine raises inside the `try` block for a
given object name, `none` for success. -/
def processObject (fail : String → Option String) (obj : SceneObject) :
    List String × SceneObject × Outcome :=
  if obj.type != "MESH" then ([], obj, Outcome.nonMesh)
  else
    let obj_name := strLower obj.name
    if hasShapeKeys obj then
      (["  [SKIP] \x27" ++ obj.name ++ "\x27 has Shape Keys (Face/Visemes detected)."],
       obj, Outcome.skippedAnimated)
    else if PRESERVE_KEYWORDS.any (fun word => strContains obj_name word) then
      (["  [PROTECT] \x27" ++ obj.name ++ "\x27 matches preservation list."],
       obj, Outcome.skippedProtected)
    else
      let branch :=
        if AGGRESSIVE_KEYWORDS.any (fun word => strContains obj_name word) then
          ("  [AGGRESSIVE] \x27" ++ obj.name ++ "\x27 identified as high-compression target.",
           RATIO_AGGRESSIVE)
        else
          ("  [STANDARD] Decimating \x27" ++ obj.name ++ "\x27...", RATIO_STANDARD)
      match fail obj.name with
      | some exc =>
        ([branch.1, "  [ERROR] Could not optimize " ++ obj.name ++ ": " ++ exc],
         obj, Outcome.failedReduce exc)
      | none =>
        ([branch.1], attachAndApply obj (smartDecimate branch.2),
         Outcome.reduced (smartDecimate branch.2))

/-- The whole procedure: parse the argument list; on failure print the single
error line and stop; otherwise process every scene object in order and issue
the export request with the source's fixed options. -/
def optimize_for_quest (argv : List String) (scene : List SceneObject)
    (fail : String → Option String) : RunResult :=
  match parseArgs argv with
  | none =>
    { log := ["[ERROR] No input file passed."], loadedPath := none,
      finalObjects := [], exported := none }
  | some input_path =>
    let results := scene.map (processObject fail)
    let out := output_path input_path
    { log := ("[PROCESSING] " ++ input_path) ::
        ((results.map Prod.fst).flatten ++ ["[COMPLETE] Saved to " ++ out]),
      loadedPath := some input_path,
      finalObjects := results.map Prod.snd,
      exported := some { filepath := out, use_selection := false, global_scale := 1,
                         apply_unit_scale := true, add_leaf_bones := false,
                         bake_anim := false } }

/-- Sample mesh object matching no keyword. -/
def exTorso : SceneObject := ⟨"Torso", "MESH", ⟨none, []⟩, []⟩

/-- Sample mesh object whose name matches both a preserve and an aggressive
keyword. -/
def exHeadStrap : SceneObject := ⟨"Head_Strap", "MESH", ⟨none, []⟩, []⟩

/-- Sample mesh object with a nonempty shape-keys datablock. -/
def exBody : SceneObject := ⟨"Body", "MESH", ⟨some ⟨["vrc.v_aa"]⟩, []⟩, []⟩

/-- Sample mesh object matching an aggressive keyword. -/
def exBoots : SceneObject := ⟨"Boots", "MESH", ⟨none, []⟩, []⟩

/-- Sample non-mesh object. -/
def exLight : SceneObject := ⟨"KeyLight", "LIGHT", ⟨none, []⟩, []⟩

/-- Sample mesh object whose shape-keys datablock exists but has no key
blocks. -/
def exJacket : SceneObject := ⟨"Jacket", "MESH", ⟨some ⟨[]⟩, []⟩, []⟩

/-- Host-engine behaviour with no failures. -/
def noFail : String → Option String := fun _ => none

/-- Behaviour of the host engine that fails exactly on the object named
`"Boots"`. -/
def bootsFail : String → Option String :=
  fun n => if n == "Boots" then some "boom" else none

theorem optimize_run_finalObjects (argv : List String) (scene : List SceneObject)
    (fail : String → Option String) (input_path : String)
    (h : parseArgs argv = some input_path) :
    (optimize_for_quest argv scene fail).finalObjects =
      scene.map (fun x => (processObject fail x).2) := by
  unfold optimize_for_quest
  rw [h]
  simp [List.map_map]

theorem optimize_run_log (argv : List String) (scene : List SceneObject)
    (fail : String → Option String) (input_path : String)
    (h : parseArgs argv = some input_path) :
    (optimize_for_quest argv scene fail).log =
      ("[PROCESSING] " ++ input_path) ::
        (((scene.map (processObject fail)).map Prod.fst).flatten ++
          ["[COMPLETE] Saved to " ++ output_path input_path]) := by
  unfold optimize_for_quest
  rw [h]

theorem optimize_run_exported (argv : List String) (scene : List SceneObject)
    (fail : String → Option String) (input_path : String)
    (h : parseArgs argv = some input_path) :
    (optimize_for_quest argv scene fail).exported =
      some { filepath := output_path input_path, use_selection := false, global_scale := 1,
             apply_unit_scale := true, add_leaf_bones := false, bake_anim := false } := by
  unfold optimize_for_quest
  rw [h]

/-- C1: for every mesh object the classifier applies its checks in fixed
order with first-match-wins: shape keys give SKIP_ANIMATED; else a preserve
keyword in the case-folded name gives SKIP_PROTECTED; else an aggressive
keyword gives REDUCE at the aggressive constant 0.2; else REDUCE at the
standard constant 0.5. -/
theorem classifier_fixed_order (o : SceneObject) (hm : o.type = "MESH") :
    decisionOf o =
      (if hasShapeKeys o then Decision.SKIP_ANIMATED
       else if PRESERVE_KEYWORDS.any (fun word => strContains (strLower o.name) word) then
         Decision.SKIP_PROTECTED
       else if AGGRESSIVE_KEYWORDS.any (fun word => strContains (strLower o.name) word) then
         Decision.REDUCE RATIO_AGGRESSIVE
       else Decision.REDUCE RATIO_STANDARD) ∧
    RATIO_AGGRESSIVE = 1 / 5 ∧ RATIO_STANDARD = 1 / 2 :=
  ⟨rfl, by norm_num [RATIO_AGGRESSIVE], by norm_num [RATIO_STANDARD]⟩

theorem classifier_fixed_order_witness :
    exTorso.type = "MESH" ∧
    (decisionOf exTorso =
      (if hasShapeKeys exTorso then Decision.SKIP_ANIMATED
       else if PRESERVE_KEYWORDS.any (fun word => strContains (strLower exTorso.name) word) then
         Decision.SKIP_PROTECTED
       else if AGGRESSIVE_KEYWORDS.any (fun word => strContains (strLower exTorso.name) word) then
         Decision.REDUCE RATIO_AGGRESSIVE
       else Decision.REDUCE RATIO_STANDARD) ∧
     RATIO_AGGRESSIVE = 1 / 5 ∧ RATIO_STANDARD = 1 / 2) :=
  ⟨rfl, classifier_fixed_order exTorso rfl⟩

/-- C2: a non-animated mesh object whose name matches both a preserve and an
aggressive keyword is classified SKIP_PROTECTED and is not reduced: the
preserve check runs first and short-circuits the aggressive check. -/
theorem preserve_shortcircuits_aggressive (o : SceneObject) (fail : String → Option String)
    (hm : o.type = "MESH") (ha : hasShapeKeys o = false)
    (hp : PRESERVE_KEYWORDS.any (fun word => strContains (strLower o.name) word) = true)
    (hg : AGGRESSIVE_KEYWORDS.any (fun word => strContains (strLower o.name) word) = true) :
    decisionOf o = Decision.SKIP_PROTECTED ∧
    (processObject fail o).2.1 = o ∧
    (processObject fail o).2.2 = Outcome.skippedProtected := by
  have hpr : processObject fail o =
      (["  [PROTECT] \x27" ++ o.name ++ "\x27 matches preservation list."], o,
        Outcome.skippedProtected) := by
    simp [processObject, hm, ha, hp]
  refine ⟨?_, by rw [hpr], by rw [hpr]⟩
  simp [decisionOf, classify, ha, hp]

theorem preserve_shortcircuits_aggressive_witness :
    hasShapeKeys exHeadStrap = false ∧
    PRESERVE_KEYWORDS.any (fun word => strContains (strLower exHeadStrap.name) word) = true ∧
    AGGRESSIVE_KEYWORDS.any (fun word => strContains (strLower exHeadStrap.name) word) = true ∧
    (decisionOf exHeadStrap = Decision.SKIP_PROTECTED ∧
     (processObject noFail exHeadStrap).2.1 = exHeadStrap ∧
     (processObject noFail exHeadStrap).2.2 = Outcome.skippedProtected) :=
  ⟨rfl, by decide, by decide,
   preserve_shortcircuits_aggressive exHeadStrap noFail rfl rfl (by decide) (by decide)⟩

/-- C3: a mesh object with shape keys is classified SKIP_ANIMATED and comes
out of its loop iteration exactly as it went in, with no modifier attached;
the same unmodified frame holds for a non-animated object matching a preserve
keyword; and a run that parses its argument processes each scene object by
exactly this per-object step. -/
theorem skipped_objects_unmodified (o : SceneObject) (fail : String → Option String)
    (hm : o.type = "MESH") :
    (hasShapeKeys o = true →
      processObject fail o =
        (["  [SKIP] \x27" ++ o.name ++ "\x27 has Shape Keys (Face/Visemes detected)."],
         o, Outcome.skippedAnimated)) ∧
    (hasShapeKeys o = false →
      PRESERVE_KEYWORDS.any (fun word => strContains (strLower o.name) word) = true →
      processObject fail o =
        (["  [PROTECT] \x27" ++ o.name ++ "\x27 matches preservation list."],
         o, Outcome.skippedProtected)) ∧
    (∀ argv scene input_path, parseArgs argv = some input_path →
      (optimize_for_quest argv scene fail).finalObjects =
        scene.map (fun x => (processObject fail x).2)) := by
  refine ⟨?_, ?_, ?_⟩
  · intro ha
    simp [processObject, hm, ha]
  · intro ha hp
    simp [processObject, hm, ha, hp]
  · intro argv scene input_path h
    exact optimize_run_finalObjects argv scene fail input_path h

theorem skipped_objects_unmodified_witness :
    hasShapeKeys exBody = true ∧
    processObject noFail exBody =
      (["  [SKIP] \x27" ++ exBody.name ++ "\x27 has Shape Keys (Face/Visemes detected)."],
       exBody, Outcome.skippedAnimated) ∧
    hasShapeKeys exHeadStrap = false ∧
    processObject noFail exHeadStrap =
      (["  [PROTECT] \x27" ++ exHeadStrap.name ++ "\x27 matches preservation list."],
       exHeadStrap, Outcome.skippedProtected) :=
  ⟨rfl, (skipped_objects_unmodified exBody noFail rfl).1 rfl,
   rfl, (skipped_objects_unmodified exHeadStrap noFail rfl).2.1 rfl (by decide)⟩

/-- C4: when the argument list has no path after the separator token, the run
prints the single error line and returns with no side effects: nothing is
loaded, no object is touched, and no export is requested. -/
theorem missing_argument_graceful (argv : List String) (scene : List SceneObject)
    (fail : String → Option String) (h : parseArgs argv = none) :
    optimize_for_quest argv scene fail =
      { log := ["[ERROR] No input file passed."], loadedPath := none,
        finalObjects := [], exported := none } := by
  unfold optimize_for_quest
  rw [h]

theorem missing_argument_graceful_witness :
    parseArgs ["blender", "-b", "scene.blend", "-P", "optimize_avatar.py"] = none ∧
    optimize_for_quest ["blender", "-b", "scene.blend", "-P", "optimize_avatar.py"]
        [exTorso, exBody] noFail =
      { log := ["[ERROR] No input file passed."], loadedPath := none,
        finalObjects := [], exported := none } :=
  ⟨by decide, missing_argument_graceful _ _ _ (by decide)⟩

/-- C5: a host-engine failure during attach-or-commit for one reduced object
is caught: the object's outcome records the exception, the error line with the
object's name and the message is printed into the run log, every scene object
is still processed by its own per-object step, and the export request is still
issued. -/
theorem reduce_failure_isolated (argv : List String) (scene : List SceneObject)
    (fail : String → Option String) (input_path : String) (o : SceneObject) (exc : String)
    (hpa : parseArgs argv = some input_path) (ho : o ∈ scene) (hm : o.type = "MESH")
    (ha : hasShapeKeys o = false)
    (hnp : PRESERVE_KEYWORDS.any (fun word => strContains (strLower o.name) word) = false)
    (hf : fail o.name = some exc) :
    (processObject fail o).2.2 = Outcome.failedReduce exc ∧
    (processObject fail o).2.1 = o ∧
    ("  [ERROR] Could not optimize " ++ o.name ++ ": " ++ exc) ∈
      (optimize_for_quest argv scene fail).log ∧
    (optimize_for_quest argv scene fail).finalObjects =
      scene.map (fun x => (processObject fail x).2) ∧
    (optimize_for_quest argv scene fail).exported =
      some { filepath := output_path input_path, use_selection := false, global_scale := 1,
             apply_unit_scale := true, add_leaf_bones := false, bake_anim := false } := by
  have hobj : ∃ b, processObject fail o =
      ([b, "  [ERROR] Could not optimize " ++ o.name ++ ": " ++ exc], o,
        Outcome.failedReduce exc) := by
    cases hg : AGGRESSIVE_KEYWORDS.any (fun word => strContains (strLower o.name) word) with
    | false =>
      refine ⟨"  [STANDARD] Decimating \x27" ++ o.name ++ "\x27...", ?_⟩
      simp [processObject, hm, ha, hnp, hg, hf]
    | true =>
      refine ⟨"  [AGGRESSIVE] \x27" ++ o.name ++ "\x27 identified as high-compression target.", ?_⟩
      simp [processObject, hm, ha, hnp, hg, hf]
  obtain ⟨b, hb⟩ := hobj
  refine ⟨by rw [hb], by rw [hb], ?_, optimize_run_finalObjects argv scene fail input_path hpa,
    optimize_run_exported argv scene fail input_path hpa⟩
  rw [optimize_run_log argv scene fail input_path hpa]
  apply List.mem_cons_of_mem
  apply List.mem_append_left
  rw [List.mem_flatten]
  refine ⟨(processObject fail o).1, ?_, by rw [hb]; simp⟩
  exact List.mem_map_of_mem Prod.fst (List.mem_map_of_mem (processObject fail) ho)

theorem reduce_failure_isolated_witness :
    bootsFail exBoots.name = some "boom" ∧
    exBoots ∈ [exBoots, exTorso] ∧
    ((processObject bootsFail exBoots).2.2 = Outcome.failedReduce "boom" ∧
     (processObject bootsFail exBoots).2.1 = exBoots ∧
     ("  [ERROR] Could not optimize " ++ exBoots.name ++ ": " ++ "boom") ∈
       (optimize_for_quest ["--", "/a/b.fbx"] [exBoots, exTorso] bootsFail).log ∧
     (optimize_for_quest ["--", "/a/b.fbx"] [exBoots, exTorso] bootsFail).finalObjects =
       [exBoots, exTorso].map (fun x => (processObject bootsFail x).2) ∧
     (optimize_for_quest ["--", "/a/b.fbx"] [exBoots, exTorso] bootsFail).exported =
       some { filepath := output_path "/a/b.fbx", use_selection := false, global_scale := 1,
              apply_unit_scale := true, add_leaf_bones := false, bake_anim := false }) :=
  ⟨rfl, by simp,
   reduce_failure_isolated ["--", "/a/b.fbx"] [exBoots, exTorso] bootsFail "/a/b.fbx"
     exBoots "boom" (by decide) (by simp) rfl rfl (by decide) rfl⟩

/-- C6: the export path is the input's directory joined with the input's
basename, extension stripped, plus the fixed suffix; on input
`/scenes/avatar.fbx` it is `/scenes/avatar_QUEST_SMART.fbx`. -/
theorem export_path_derived (argv : List String) (scene : List SceneObject)
    (fail : String → Option String) (input_path : String)
    (h : parseArgs argv = some input_path) :
    ((optimize_for_quest argv scene fail).exported.map ExportCall.filepath) =
      some (joinPath (dirname input_path)
        ((splitext (basename input_path)).1 ++ "_QUEST_SMART.fbx")) ∧
    output_path "/scenes/avatar.fbx" = "/scenes/avatar_QUEST_SMART.fbx" := by
  constructor
  · rw [optimize_run_exported argv scene fail input_path h]
    rfl
  · decide

theorem export_path_derived_witness :
    parseArgs ["--", "/scenes/avatar.fbx"] = some "/scenes/avatar.fbx" ∧
    ((optimize_for_quest ["--", "/scenes/avatar.fbx"] [exTorso] noFail).exported.map
        ExportCall.filepath) =
      some (joinPath (dirname "/scenes/avatar.fbx")
        ((splitext (basename "/scenes/avatar.fbx")).1 ++ "_QUEST_SMART.fbx")) :=
  ⟨by decide, (export_path_derived ["--", "/scenes/avatar.fbx"] [exTorso] noFail
      "/scenes/avatar.fbx" (by decide)).1⟩

/-- C7: a scene object whose type is not MESH is skipped before the classifier
runs: its loop iteration prints nothing, leaves it exactly as it was, and tags
it with the non-classifier outcome. -/
theorem non_mesh_untouched (o : SceneObject) (fail : String → Option String)
    (h : o.type ≠ "MESH") :
    processObject fail o = ([], o, Outcome.nonMesh) := by
  simp [processObject, h]

theorem non_mesh_untouched_witness :
    exLight.type ≠ "MESH" ∧
    processObject noFail exLight = ([], exLight, Outcome.nonMesh) :=
  ⟨by decide, non_mesh_untouched exLight noFail (by decide)⟩

/-- C8: an object decided REDUCE gets exactly the fixed decimation request:
name SmartDecimate, type DECIMATE, the decided ratio, triangulated collapse
on, symmetry off, delimiting at exactly the UV and material discontinuities;
the request is baked into the object's base mesh and leaves no live modifier
on its stack. -/
theorem reduce_request_parameters (o : SceneObject) (fail : String → Option String) (r : ℚ)
    (hm : o.type = "MESH") (hd : decisionOf o = Decision.REDUCE r)
    (hs : fail o.name = none) :
    (processObject fail o).2.2 = Outcome.reduced (smartDecimate r) ∧
    (processObject fail o).2.1 =
      { o with data := { o.data with applied := o.data.applied ++ [smartDecimate r] } } ∧
    (processObject fail o).2.1.modifiers = o.modifiers ∧
    smartDecimate r =
      { name := "SmartDecimate", type := "DECIMATE", ratio := r,
        use_collapse_triangulate := true, use_symmetry := false,
        delimit := ["UV", "MATERIAL"] } := by
  have ha : hasShapeKeys o = false := by
    cases hb : hasShapeKeys o
    · rfl
    · simp [decisionOf, classify, hb] at hd
  have hnp : PRESERVE_KEYWORDS.any (fun word => strContains (strLower o.name) word) = false := by
    cases hb : PRESERVE_KEYWORDS.any (fun word => strContains (strLower o.name) word)
    · rfl
    · simp [decisionOf, classify, ha, hb] at hd
  cases hg : AGGRESSIVE_KEYWORDS.any (fun word => strContains (strLower o.name) word) with
  | false =>
    have hr : RATIO_STANDARD = r := by
      simpa [decisionOf, classify, ha, hnp, hg] using hd
    subst hr
    refine ⟨?_, ?_, ?_, rfl⟩ <;>
      simp [processObject, hm, ha, hnp, hg, hs, attachAndApply]
  | true =>
    have hr : RATIO_AGGRESSIVE = r := by
      simpa [decisionOf, classify, ha, hnp, hg] using hd
    subst hr
    refine ⟨?_, ?_, ?_, rfl⟩ <;>
      simp [processObject, hm, ha, hnp, hg, hs, attachAndApply]

theorem reduce_request_parameters_witness :
    decisionOf exBoots = Decision.REDUCE RATIO_AGGRESSIVE ∧
    noFail exBoots.name = none ∧
    ((processObject noFail exBoots).2.2 = Outcome.reduced (smartDecimate RATIO_AGGRESSIVE) ∧
     (processObject noFail exBoots).2.1 =
       { exBoots with data :=
           { exBoots.data with applied := exBoots.data.applied ++ [smartDecimate RATIO_AGGRESSIVE] } } ∧
     (processObject noFail exBoots).2.1.modifiers = exBoots.modifiers ∧
     smartDecimate RATIO_AGGRESSIVE =
       { name := "SmartDecimate", type := "DECIMATE", ratio := RATIO_AGGRESSIVE,
         use_collapse_triangulate := true, use_symmetry := false,
         delimit := ["UV", "MATERIAL"] }) :=
  ⟨rfl, rfl, reduce_request_parameters exBoots noFail RATIO_AGGRESSIVE rfl rfl rfl⟩

/-- C9: classification is a total deterministic function of the object's name
and shape-key presence alone, and the name test is case-insensitive: objects
agreeing on name and shape-key presence get the same decision, and names with
the same case folding classify identically. -/
theorem classification_pure_case_insensitive :
    (∀ o1 o2 : SceneObject, o1.name = o2.name → hasShapeKeys o1 = hasShapeKeys o2 →
      decisionOf o1 = decisionOf o2) ∧
    (∀ n1 n2 : String, ∀ hk : Bool, strLower n1 = strLower n2 →
      classify n1 hk = classify n2 hk) := by
  constructor
  · intro o1 o2 hn hs
    simp only [decisionOf]
    rw [hn, hs]
  · intro n1 n2 hk h
    simp only [classify]
    rw [h]

theorem classification_pure_case_insensitive_witness :
    strLower "HEAD_Strap" = strLower "head_strap" ∧
    classify "HEAD_Strap" false = classify "head_strap" false :=
  ⟨by decide,
   classification_pure_case_insensitive.2 "HEAD_Strap" "head_strap" false (by decide)⟩

/-- C10: a mesh object whose shape-keys datablock exists but holds zero key
blocks is not treated as animated: the shape-key test is false, the decision
is never SKIP_ANIMATED, and the object falls through to keyword
classification, reducing unless a preserve keyword matches. -/
theorem empty_shape_key_blocks_not_animated (o : SceneObject) (sk : ShapeKeys)
    (hm : o.type = "MESH") (hsk : o.data.shape_keys = some sk)
    (hz : sk.key_blocks = []) :
    hasShapeKeys o = false ∧
    decisionOf o ≠ Decision.SKIP_ANIMATED ∧
    decisionOf o =
      (if PRESERVE_KEYWORDS.any (fun word => strContains (strLower o.name) word) then
        Decision.SKIP_PROTECTED
       else if AGGRESSIVE_KEYWORDS.any (fun word => strContains (strLower o.name) word) then
        Decision.REDUCE RATIO_AGGRESSIVE
       else Decision.REDUCE RATIO_STANDARD) := by
  have h0 : hasShapeKeys o = false := by
    simp [hasShapeKeys, hsk, hz]
  have h1 : decisionOf o =
      (if PRESERVE_KEYWORDS.any (fun word => strContains (strLower o.name) word) then
        Decision.SKIP_PROTECTED
       else if AGGRESSIVE_KEYWORDS.any (fun word => strContains (strLower o.name) word) then
        Decision.REDUCE RATIO_AGGRESSIVE
       else Decision.REDUCE RATIO_STANDARD) := by
    simp [decisionOf, classify, h0]
  refine ⟨h0, ?_, h1⟩
  rw [h1]
  split_ifs <;> simp

theorem empty_shape_key_blocks_not_animated_witness :
    exJacket.data.shape_keys = some ⟨[]⟩ ∧
    (hasShapeKeys exJacket = false ∧
     decisionOf exJacket ≠ Decision.SKIP_ANIMATED ∧
     decisionOf exJacket =
       (if PRESERVE_KEYWORDS.any (fun word => strContains (strLower exJacket.name) word) then
         Decision.SKIP_PROTECTED
        else if AGGRESSIVE_KEYWORDS.any (fun word => strContains (strLower exJacket.name) word) then
         Decision.REDUCE RATIO_AGGRESSIVE
        else Decision.REDUCE RATIO_STANDARD)) :=
  ⟨rfl, empty_shape_key_blocks_not_animated exJacket ⟨[]⟩ rfl rfl rfl⟩
